import Mathlib

/-!
Verification development for the grizzly async-message broker daemon.

Shallow embedding of:
- the router loop of grizzly_extras/async_message/daemon.py,
- the native IBM MQ handler grizzly_extras/async_message/mq.py,
- the HTTP-transport MQ handler grizzly_extras/async_message/mq/__init__.py,
- the client correlator grizzly_extras/async_message/utils.py.

Python dicts whose keys matter are modelled as association lists, bytes
frames as strings, monotonic clock readings as rationals supplied via
environment parameters, and fallible code as Except/Option values.
-/

/-! ## Association lists standing for Python dicts -/

/-- Lookup in an association list modelling a Python dict (dict.get). -/
def dget {κ ν : Type} [DecidableEq κ] : List (κ × ν) → κ → Option ν
  | [], _ => none
  | (k, v) :: rest, key => if key = k then some v else dget rest key

/-- Single-key dict.update: replace the value if the key is present,
otherwise append the binding. -/
def dput {κ ν : Type} [DecidableEq κ] : List (κ × ν) → κ → ν → List (κ × ν)
  | [], key, value => [(key, value)]
  | (k, v) :: rest, key, value =>
      if key = k then (k, value) :: rest else (k, v) :: dput rest key value

theorem dget_dput_same {κ ν : Type} [DecidableEq κ] (m : List (κ × ν)) (k : κ) (v : ν) :
    dget (dput m k v) k = some v := by
  induction m with
  | nil => simp [dput, dget]
  | cons hd tl ih =>
      obtain ⟨k0, v0⟩ := hd
      by_cases h : k = k0
      · simp [dput, dget, h]
      · simp [dput, dget, h, ih]

theorem dget_dput_other {κ ν : Type} [DecidableEq κ] (m : List (κ × ν)) (k k0 : κ) (v : ν)
    (h : k0 ≠ k) : dget (dput m k v) k0 = dget m k0 := by
  induction m with
  | nil => simp [dput, dget, h]
  | cons hd tl ih =>
      obtain ⟨k1, v1⟩ := hd
      by_cases h1 : k = k1
      · subst h1
        simp [dput, dget, h]
      · by_cases h2 : k0 = k1
        · simp [dput, dget, h1, h2]
        · simp [dput, dget, h1, h2, ih]

/-! ## Router embedding (grizzly_extras/async_message/daemon.py, router) -/

/-- Modelled from the spec: the READY sentinel value `LRU_READY` is defined in
grizzly_extras/async_message/__init__.py which is not part of the source tree;
the spec only says workers advertise readiness with a READY sentinel, so the
sentinel is modelled as the string "READY". Only identity of the sentinel
matters to the router, never its spelling. -/
def LRU_READY : String := "READY"

/-- The mutable state of the router loop (daemon.py lines 184-186):
workers_available, client_worker_map and worker_identifiers_map, plus a count
of spawn_worker calls (the workers dict itself holds futures, irrelevant to
the routing state). -/
structure RouterState where
  workers_available : List String
  client_worker_map : List (String × String)
  worker_identifiers_map : List (String × String)
  spawned : Nat
deriving DecidableEq, Repr

/-- The frontend payload fields the router reads (daemon.py lines 250-261):
worker, client, request_id and context.url. -/
structure RouterPayload where
  worker : Option String
  client : Option String
  url : Option String
  request_id : Option String
deriving DecidableEq, Repr

/-- Observable actions of one router-loop iteration. -/
inductive RouterOut where
  | toFrontend (reply : List String)
  | toBackend (worker : String) (identity : String) (payload : RouterPayload)
  | spawn
deriving DecidableEq, Repr

/-- Characters allowed in a URL scheme by urllib.parse (letters, digits,
plus, minus, dot). -/
def isSchemeChar (c : Char) : Bool :=
  c.isAlpha || c.isDigit || c = '+' || c = '-' || c = '.'

/-- The scheme component produced by urllib.parse.urlparse: the lowercased
text before the first colon, provided it is nonempty, starts with a letter
and consists of scheme characters; otherwise the empty string. -/
def urlscheme (url : String) : String :=
  let cs := url.toList
  match cs.findIdx? (fun c => c = ':') with
  | none => ""
  | some i =>
      if decide (0 < i) && (cs.take i).all isSchemeChar &&
          ((cs.head?.map Char.isAlpha).getD false) then
        String.mk ((cs.take i).map Char.toLower)
      else
        ""

/-- The client key computation (daemon.py lines 260-267): none when the
payload has no client id; otherwise "<client>::<scheme>". With no context
url, urlparse(None) yields a result whose scheme is the empty bytes string;
lines 264-265 decode it, so the client key degenerates to "<client>::" and
the request is still routed normally. -/
def clientKey (payload : RouterPayload) : Option String :=
  match payload.client with
  | none => none
  | some c =>
      match payload.url with
      | none => some (c ++ "::")
      | some u => some (c ++ "::" ++ urlscheme u)

/-- One backend-socket iteration (daemon.py lines 202-236). The multipart
frames are [worker identity, empty frame, reply frames...]; the code stores
reply[0] into worker_identifiers_map before testing it against the READY
sentinel. The jsonloads of the last frame on line 222 feeds only a DEBUG log
and is not modelled. Result none means the iteration raised (IndexError on
reply[0]) and the router loop died. -/
def backendStep (st : RouterState) (backend_response : List String) :
    Option (RouterState × List RouterOut) :=
  match backend_response with
  | [] => some (st, [])
  | worker_id :: _ =>
      match backend_response.drop 2 with
      | [] => none
      | r0 :: rest =>
          let st1 := { st with
            worker_identifiers_map := dput st.worker_identifiers_map worker_id r0 }
          if r0 ≠ LRU_READY then
            some (st1, [RouterOut.toFrontend (r0 :: rest)])
          else
            some ({ st1 with workers_available := st1.workers_available ++ [worker_id] }, [])

/-- One frontend-socket iteration (daemon.py lines 238-295). The identity is
msg[0]; the payload is the parsed JSON of the last frame. Result none means
the iteration raised (IndexError from workers_available.pop() on an empty
list) and the router loop died.
Note that list.pop() with no argument removes the LAST element. -/
def frontendStep (st : RouterState) (identity : String) (payload : RouterPayload) :
    Option (RouterState × List RouterOut) :=
  let client_key := clientKey payload
  let rwid : Option String :=
    match payload.worker, client_key with
    | none, some k => dget st.client_worker_map k
    | r, _ => r
  match rwid with
  | none =>
      match st.workers_available.getLast? with
      | none => none
      | some worker_id =>
          let wa := st.workers_available.dropLast
          let cwm :=
            match client_key with
            | some k => dput st.client_worker_map k worker_id
            | none => st.client_worker_map
          let payload1 := { payload with worker := some worker_id }
          let spawns : List RouterOut := if wa = [] then [RouterOut.spawn] else []
          some ({ st with
                    workers_available := wa,
                    client_worker_map := cwm,
                    spawned := st.spawned + (if wa = [] then 1 else 0) },
                spawns ++ [RouterOut.toBackend worker_id identity payload1])
  | some w =>
      let payload1 :=
        if payload.worker = none then { payload with worker := some w } else payload
      some (st, [RouterOut.toBackend w identity payload1])

/-- An input event of the router loop: a multipart message on the backend
socket, or an (identity, parsed payload) pair on the frontend socket. -/
inductive RouterEvent where
  | backend (frames : List String)
  | frontend (identity : String) (payload : RouterPayload)
deriving DecidableEq, Repr

/-- Dispatch one polled event (daemon.py main loop body). -/
def routerStep (st : RouterState) : RouterEvent → Option (RouterState × List RouterOut)
  | RouterEvent.backend frames => backendStep st frames
  | RouterEvent.frontend identity payload => frontendStep st identity payload

/-- Run the router loop from a given state over a list of events. none means
the loop died on an unhandled exception at some event. -/
def routerRunFrom (st : RouterState) : List RouterEvent → Option RouterState
  | [] => some st
  | e :: es =>
      match routerStep st e with
      | none => none
      | some (st1, _) => routerRunFrom st1 es

/-- Run the router loop collecting all observable outputs. -/
def routerTraceFrom (st : RouterState) : List RouterEvent → Option (RouterState × List RouterOut)
  | [] => some (st, [])
  | e :: es =>
      match routerStep st e with
      | none => none
      | some (st1, outs) =>
          match routerTraceFrom st1 es with
          | none => none
          | some (st2, outs2) => some (st2, outs ++ outs2)

/-- Router state at loop entry (daemon.py lines 184-188): empty pool and
maps, one worker already spawned. -/
def initialRouterState : RouterState :=
  { workers_available := [], client_worker_map := [], worker_identifiers_map := [], spawned := 1 }

/-- Run the router loop from its initial state. -/
def routerRun (evs : List RouterEvent) : Option RouterState :=
  routerRunFrom initialRouterState evs

/-! ## Router lemmas -/

theorem backendStep_cwm (st st1 : RouterState) (frames : List String) (outs : List RouterOut)
    (h : backendStep st frames = some (st1, outs)) :
    st1.client_worker_map = st.client_worker_map := by
  unfold backendStep at h
  cases frames with
  | nil => simp at h; rw [← h.1]
  | cons f0 rest =>
      cases hd : (f0 :: rest).drop 2 with
      | nil => rw [hd] at h; simp at h
      | cons r0 rest2 =>
          rw [hd] at h
          by_cases hr : r0 ≠ LRU_READY
          · simp [hr] at h
            rw [← h.1]
          · simp [hr] at h
            rw [← h.1]

theorem frontendStep_preserves_cwm (st st1 : RouterState) (identity : String)
    (payload : RouterPayload) (outs : List RouterOut) (k w : String)
    (hstep : frontendStep st identity payload = some (st1, outs))
    (hk : dget st.client_worker_map k = some w) :
    dget st1.client_worker_map k = some w := by
  unfold frontendStep at hstep
  cases hpw : payload.worker with
  | some w0 =>
      rw [hpw] at hstep
      simp at hstep
      rw [← hstep.1]
      exact hk
  | none =>
      rw [hpw] at hstep
      cases hck : clientKey payload with
      | none =>
          rw [hck] at hstep
          simp only at hstep
          cases hlast : st.workers_available.getLast? with
          | none => rw [hlast] at hstep; simp at hstep
          | some wid =>
              rw [hlast] at hstep
              simp at hstep
              rw [← hstep.1]
              exact hk
      | some ck =>
          rw [hck] at hstep
          simp only at hstep
          cases hlook : dget st.client_worker_map ck with
          | some w1 =>
              rw [hlook] at hstep
              simp at hstep
              rw [← hstep.1]
              exact hk
          | none =>
              rw [hlook] at hstep
              cases hlast : st.workers_available.getLast? with
              | none => rw [hlast] at hstep; simp at hstep
              | some wid =>
                  rw [hlast] at hstep
                  simp at hstep
                  rw [← hstep.1]
                  by_cases hkck : k = ck
                  · rw [hkck] at hk
                    rw [hk] at hlook
                    exact absurd hlook (by simp)
                  · simpa [dget_dput_other st.client_worker_map ck k wid hkck] using hk

theorem routerStep_preserves_cwm (st st1 : RouterState) (e : RouterEvent)
    (outs : List RouterOut) (k w : String)
    (hstep : routerStep st e = some (st1, outs))
    (hk : dget st.client_worker_map k = some w) :
    dget st1.client_worker_map k = some w := by
  cases e with
  | backend frames =>
      have := backendStep_cwm st st1 frames outs hstep
      rw [this]
      exact hk
  | frontend identity payload =>
      exact frontendStep_preserves_cwm st st1 identity payload outs k w hstep hk

theorem routerRunFrom_preserves_cwm (evs : List RouterEvent) (st st2 : RouterState)
    (k w : String)
    (hk : dget st.client_worker_map k = some w)
    (hrun : routerRunFrom st evs = some st2) :
    dget st2.client_worker_map k = some w := by
  induction evs generalizing st with
  | nil => unfold routerRunFrom at hrun; simp at hrun; rw [← hrun]; exact hk
  | cons e es ih =>
      unfold routerRunFrom at hrun
      cases hstep : routerStep st e with
      | none => rw [hstep] at hrun; simp at hrun
      | some p =>
          rw [hstep] at hrun
          simp only at hrun
          exact ih p.1 (routerStep_preserves_cwm st p.1 e p.2 k w hstep hk) hrun

/-! ## Claim C1: client to worker affinity -/

/-- Claim C1: router affinity invariant. Once a client key is mapped to a
worker id in client_worker_map during a run of the router loop, no later
processed event (frontend or backend) changes that entry: the key still maps
to the same worker id in every later state of the run. -/
theorem router_client_worker_map_affinity (evs more : List RouterEvent)
    (st st2 : RouterState) (k w : String)
    (_hreach : routerRun evs = some st)
    (hk : dget st.client_worker_map k = some w)
    (hrun : routerRunFrom st more = some st2) :
    dget st2.client_worker_map k = some w :=
  routerRunFrom_preserves_cwm more st st2 k w hk hrun

/-- Witness for C1: two workers signal READY, a client whose request has a
url is assigned one worker, a client request with no context url (key
"c2::", routed normally per daemon.py 264-265) is assigned another, and
further requests from both clients leave both mappings intact. -/
theorem router_client_worker_map_affinity_witness :
    routerRun
      [RouterEvent.backend ["w1", "", "READY"],
       RouterEvent.backend ["w2", "", "READY"],
       RouterEvent.frontend "id1" ⟨none, some "c", some "mq://host", none⟩,
       RouterEvent.frontend "id2" ⟨none, some "c2", none, none⟩] =
      some ⟨[], [("c::mq", "w2"), ("c2::", "w1")],
        [("w1", "READY"), ("w2", "READY")], 2⟩ ∧
    dget [("c::mq", "w2"), ("c2::", "w1")] "c2::" = some "w1" ∧
    routerRunFrom ⟨[], [("c::mq", "w2"), ("c2::", "w1")],
        [("w1", "READY"), ("w2", "READY")], 2⟩
      [RouterEvent.frontend "id2" ⟨none, some "c2", none, none⟩,
       RouterEvent.frontend "id1" ⟨none, some "c", some "mq://host", none⟩] =
      some ⟨[], [("c::mq", "w2"), ("c2::", "w1")],
        [("w1", "READY"), ("w2", "READY")], 2⟩ ∧
    dget (RouterState.client_worker_map
        ⟨[], [("c::mq", "w2"), ("c2::", "w1")],
          [("w1", "READY"), ("w2", "READY")], 2⟩) "c2::" =
      some "w1" :=
  ⟨by decide, by decide, by decide,
    router_client_worker_map_affinity
      [RouterEvent.backend ["w1", "", "READY"],
       RouterEvent.backend ["w2", "", "READY"],
       RouterEvent.frontend "id1" ⟨none, some "c", some "mq://host", none⟩,
       RouterEvent.frontend "id2" ⟨none, some "c2", none, none⟩]
      [RouterEvent.frontend "id2" ⟨none, some "c2", none, none⟩,
       RouterEvent.frontend "id1" ⟨none, some "c", some "mq://host", none⟩]
      ⟨[], [("c::mq", "w2"), ("c2::", "w1")], [("w1", "READY"), ("w2", "READY")], 2⟩
      ⟨[], [("c::mq", "w2"), ("c2::", "w1")], [("w1", "READY"), ("w2", "READY")], 2⟩
      "c2::" "w1" (by decide) (by decide) (by decide)⟩

/-! ## Claim C2: discipline of the idle-worker pool -/

/-- Counterexample to C2 as stated: workers w1 then w2 signal READY (so w1 is
the least-recently-appended idle worker), and the next new client key is
assigned w2, the most-recently-appended one, because list.pop() removes the
last element. The pool is a LIFO stack, not a FIFO queue. -/
theorem router_workers_available_fifo_counterexample :
    routerTraceFrom initialRouterState
      [RouterEvent.backend ["w1", "", "READY"],
       RouterEvent.backend ["w2", "", "READY"],
       RouterEvent.frontend "id1" ⟨none, some "c", some "mq://host", none⟩] =
      some (⟨["w1"], [("c::mq", "w2")], [("w1", "READY"), ("w2", "READY")], 1⟩,
            [RouterOut.toBackend "w2" "id1" ⟨some "w2", some "c", some "mq://host", none⟩]) ∧
    "w2" ≠ "w1" := by
  constructor
  · decide
  · decide

/-- Claim C2 (amended): the pool of idle workers is a LIFO stack. Worker ids
are appended to workers_available when a worker signals READY, and when the
router must assign a worker to a new client key it removes and uses the
most-recently-appended idle worker id (the last element of the list). -/
theorem router_workers_available_lifo (st : RouterState) (identity : String)
    (payload : RouterPayload) (wlast : String)
    (hw : payload.worker = none)
    (hmiss : ∀ k, clientKey payload = some k → dget st.client_worker_map k = none)
    (hlast : st.workers_available.getLast? = some wlast) :
    (∀ worker_id f1 more, backendStep st (worker_id :: f1 :: LRU_READY :: more) =
        some ({ st with
                  worker_identifiers_map := dput st.worker_identifiers_map worker_id LRU_READY,
                  workers_available := st.workers_available ++ [worker_id] }, [])) ∧
    (∀ st1 outs, frontendStep st identity payload = some (st1, outs) →
        st1.workers_available = st.workers_available.dropLast ∧
        outs.getLast? =
          some (RouterOut.toBackend wlast identity { payload with worker := some wlast })) := by
  constructor
  · intro worker_id f1 more
    simp [backendStep]
  · intro st1 outs h
    unfold frontendStep at h
    rw [hw] at h
    cases hck : clientKey payload with
    | none =>
        rw [hck] at h
        simp only at h
        rw [hlast] at h
        simp at h
        obtain ⟨h1, h2⟩ := h
        constructor
        · rw [← h1]
        · rw [← h2]
          by_cases hwa : st.workers_available.dropLast = []
          · simp [hwa]
          · simp [hwa]
    | some k =>
        rw [hck] at h
        simp only at h
        rw [hmiss k hck] at h
        rw [hlast] at h
        simp at h
        obtain ⟨h1, h2⟩ := h
        constructor
        · rw [← h1]
        · rw [← h2]
          by_cases hwa : st.workers_available.dropLast = []
          · simp [hwa]
          · simp [hwa]

/-- Witness for the amended C2: from a pool [w1, w2] and an unknown client
key, here from a request with no context url (key "c::", routed normally),
the assignment removes w2, the most recently appended id, and the remaining
pool is [w1]. -/
theorem router_workers_available_lifo_witness :
    frontendStep ⟨["w1", "w2"], [], [], 1⟩ "id1" ⟨none, some "c", none, none⟩ =
      some (⟨["w1"], [("c::", "w2")], [], 1⟩,
            [RouterOut.toBackend "w2" "id1" ⟨some "w2", some "c", none, none⟩]) ∧
    (⟨["w1"], [("c::", "w2")], [], 1⟩ : RouterState).workers_available =
      (⟨["w1", "w2"], [], [], 1⟩ : RouterState).workers_available.dropLast ∧
    List.getLast?
        [RouterOut.toBackend "w2" "id1" ⟨some "w2", some "c", none, none⟩] =
      some (RouterOut.toBackend "w2" "id1" ⟨some "w2", some "c", none, none⟩) := by
  refine ⟨by decide, ?_, ?_⟩
  · exact ((router_workers_available_lifo ⟨["w1", "w2"], [], [], 1⟩ "id1"
      ⟨none, some "c", none, none⟩ "w2" rfl
      (fun k _ => rfl) (by decide)).2
      ⟨["w1"], [("c::", "w2")], [], 1⟩
      [RouterOut.toBackend "w2" "id1" ⟨some "w2", some "c", none, none⟩]
      (by decide)).1
  · exact ((router_workers_available_lifo ⟨["w1", "w2"], [], [], 1⟩ "id1"
      ⟨none, some "c", none, none⟩ "w2" rfl
      (fun k _ => rfl) (by decide)).2
      ⟨["w1"], [("c::", "w2")], [], 1⟩
      [RouterOut.toBackend "w2" "id1" ⟨some "w2", some "c", none, none⟩]
      (by decide)).2

/-! ## Claim C10: worker_identifiers_map contents -/

/-- Effect of one event on the worker_identifiers_map entry of worker w: a
backend message from w (with at least the identity, empty and one reply
frame) overwrites the entry with its first reply frame; everything else
leaves it alone. -/
def wimUpd (w : String) (acc : Option String) : RouterEvent → Option String
  | RouterEvent.backend (f0 :: _ :: r0 :: _) => if f0 = w then some r0 else acc
  | _ => acc

/-- The first reply frame of the last backend message from worker w in an
event list, continuing from a previous value. -/
def lastBackendHeadFrom (a : Option String) (evs : List RouterEvent) (w : String) :
    Option String :=
  evs.foldl (wimUpd w) a

/-- The first reply frame of the last backend message from worker w. -/
def lastBackendHead (evs : List RouterEvent) (w : String) : Option String :=
  lastBackendHeadFrom none evs w

theorem routerStep_wim (st st1 : RouterState) (e : RouterEvent) (outs : List RouterOut)
    (w : String) (hstep : routerStep st e = some (st1, outs)) :
    dget st1.worker_identifiers_map w = wimUpd w (dget st.worker_identifiers_map w) e := by
  cases e with
  | frontend identity payload =>
      simp only [routerStep] at hstep
      unfold frontendStep at hstep
      cases hpw : payload.worker with
      | some w0 =>
          rw [hpw] at hstep
          simp at hstep
          rw [← hstep.1]
          rfl
      | none =>
          rw [hpw] at hstep
          cases hck : clientKey payload with
          | none =>
              rw [hck] at hstep
              simp only at hstep
              cases hlast : st.workers_available.getLast? with
              | none => rw [hlast] at hstep; simp at hstep
              | some wid =>
                  rw [hlast] at hstep
                  simp at hstep
                  rw [← hstep.1]
                  rfl
          | some ck =>
              rw [hck] at hstep
              simp only at hstep
              cases hlook : dget st.client_worker_map ck with
              | some w1 =>
                  rw [hlook] at hstep
                  simp at hstep
                  rw [← hstep.1]
                  rfl
              | none =>
                  rw [hlook] at hstep
                  cases hlast : st.workers_available.getLast? with
                  | none => rw [hlast] at hstep; simp at hstep
                  | some wid =>
                      rw [hlast] at hstep
                      simp at hstep
                      rw [← hstep.1]
                      rfl
  | backend frames =>
      simp only [routerStep] at hstep
      unfold backendStep at hstep
      cases frames with
      | nil => simp at hstep; rw [← hstep.1]; rfl
      | cons f0 rest =>
          cases rest with
          | nil => simp at hstep
          | cons f1 rest2 =>
              cases rest2 with
              | nil => simp at hstep
              | cons r0 rest3 =>
                  simp only [List.drop] at hstep
                  by_cases hr : r0 ≠ LRU_READY
                  · simp [hr] at hstep
                    rw [← hstep.1]
                    simp only [wimUpd]
                    by_cases hf : f0 = w
                    · subst hf
                      simp [dget_dput_same]
                    · have hne : w ≠ f0 := fun hww => hf hww.symm
                      simp [hf, dget_dput_other st.worker_identifiers_map f0 w r0 hne]
                  · simp [hr] at hstep
                    rw [← hstep.1]
                    simp only [wimUpd]
                    by_cases hf : f0 = w
                    · subst hf
                      simp [dget_dput_same]
                    · have hne : w ≠ f0 := fun hww => hf hww.symm
                      simp [hf, dget_dput_other st.worker_identifiers_map f0 w r0 hne]

theorem routerRunFrom_wim (evs : List RouterEvent) (st st2 : RouterState) (w : String)
    (hrun : routerRunFrom st evs = some st2) :
    dget st2.worker_identifiers_map w =
      lastBackendHeadFrom (dget st.worker_identifiers_map w) evs w := by
  induction evs generalizing st with
  | nil =>
      unfold routerRunFrom at hrun
      simp at hrun
      rw [← hrun]
      rfl
  | cons e es ih =>
      unfold routerRunFrom at hrun
      cases hstep : routerStep st e with
      | none => rw [hstep] at hrun; simp at hrun
      | some p =>
          rw [hstep] at hrun
          simp only at hrun
          have h1 := routerStep_wim st p.1 e p.2 w hstep
          have h2 := ih p.1 hrun
          rw [h2, h1]
          rfl

/-- Counterexample to C10 as stated: after a single worker READY announcement
the worker_identifiers_map maps that worker id to the READY sentinel frame,
because the router stores the first reply frame before testing it against
the sentinel. -/
theorem router_worker_identity_ready_counterexample :
    routerRun [RouterEvent.backend ["w1", "", "READY"]] =
      some ⟨["w1"], [], [("w1", "READY")], 1⟩ ∧
    dget (RouterState.worker_identifiers_map ⟨["w1"], [], [("w1", "READY")], 1⟩) "w1" =
      some LRU_READY := by
  constructor
  · decide
  · decide

/-- Claim C10 (amended): for every worker id in worker_identifiers_map, the
stored value is the first frame following the envelope of the last backend
message received from that worker: the client identity frame of the last
reply that worker forwarded, except that it is the READY sentinel frame when
the most recent backend message from that worker was its READY announcement. -/
theorem router_worker_identity_last_backend (evs : List RouterEvent) (st : RouterState)
    (w : String) (hrun : routerRun evs = some st) :
    dget st.worker_identifiers_map w = lastBackendHead evs w :=
  routerRunFrom_wim evs initialRouterState st w hrun

/-- Witness for the amended C10: a worker signals READY, is assigned to a
client whose request carries no context url (processed normally with key
"c::"), and then forwards a reply for client identity id7; the map ends at
id7, the head frame of the last backend message from that worker. -/
theorem router_worker_identity_last_backend_witness :
    routerRun
      [RouterEvent.backend ["w1", "", "READY"],
       RouterEvent.frontend "id7" ⟨none, some "c", none, none⟩,
       RouterEvent.backend ["w1", "", "id7", "", "{}"]] =
      some ⟨[], [("c::", "w1")], [("w1", "id7")], 2⟩ ∧
    dget (RouterState.worker_identifiers_map ⟨[], [("c::", "w1")], [("w1", "id7")], 2⟩)
        "w1" =
      lastBackendHead
        [RouterEvent.backend ["w1", "", "READY"],
         RouterEvent.frontend "id7" ⟨none, some "c", none, none⟩,
         RouterEvent.backend ["w1", "", "id7", "", "{}"]] "w1" :=
  ⟨by decide,
    router_worker_identity_last_backend
      [RouterEvent.backend ["w1", "", "READY"],
       RouterEvent.frontend "id7" ⟨none, some "c", none, none⟩,
       RouterEvent.backend ["w1", "", "id7", "", "{}"]]
      ⟨[], [("c::", "w1")], [("w1", "id7")], 2⟩ "w1" (by decide)⟩

/-! ## Client correlator embedding (grizzly_extras/async_message/utils.py) -/

/-- The request object passed to async_message_request: the request_id field,
with all other key-value fields kept opaque. -/
structure CorrRequest where
  request_id : Option String
  fields : List (String × String)
deriving DecidableEq, Repr

/-- utils.py line 33: the mutation applied to the request before send_json.
The code assigns a fresh uuid4().hex to request_id unconditionally; the
fresh hex string is a parameter of the embedding. -/
def async_message_request_send (fresh_uuid_hex : String) (request : CorrRequest) :
    CorrRequest :=
  { request with request_id := some fresh_uuid_hex }

/-- The response object received by the correlator: success, message, and all
other fields kept opaque. -/
structure CorrResponse where
  success : Bool
  message : Option String
  fields : List (String × String)
deriving DecidableEq, Repr

/-- What async_message_request does after receiving: raise AsyncMessageAbort,
raise AsyncMessageError with a message, or return the response. -/
inductive CorrOutcome where
  | abortRaised
  | errorRaised (message : Option String)
  | returned (response : CorrResponse)
deriving DecidableEq, Repr

/-- utils.py lines 53-74: classification of the received response. The input
none models recv_json delivering JSON null, which the code reports as the
error "no response". -/
def async_message_request_receive (response : Option CorrResponse) : CorrOutcome :=
  match response with
  | none => CorrOutcome.errorRaised (some "no response")
  | some r =>
      if r.success = false then
        if r.message = some "abort" then CorrOutcome.abortRaised
        else CorrOutcome.errorRaised r.message
      else CorrOutcome.returned r

/-! ## Claim C8: correlator response classification -/

/-- Claim C8: for every response received by the correlator, success false
with message "abort" raises the distinct abort signal; success false with
any other message raises an error carrying the server message; success true
returns the response unchanged. -/
theorem correlator_response_classification (r : CorrResponse) :
    (r.success = false → r.message = some "abort" →
        async_message_request_receive (some r) = CorrOutcome.abortRaised) ∧
    (r.success = false → r.message ≠ some "abort" →
        async_message_request_receive (some r) = CorrOutcome.errorRaised r.message) ∧
    (r.success = true → async_message_request_receive (some r) = CorrOutcome.returned r) := by
  refine ⟨?_, ?_, ?_⟩
  · intro hs hm
    simp [async_message_request_receive, hs, hm]
  · intro hs hm
    simp [async_message_request_receive, hs, hm]
  · intro hs
    simp [async_message_request_receive, hs]

/-- Witness for C8: the three cases at concrete responses. -/
theorem correlator_response_classification_witness :
    async_message_request_receive (some ⟨false, some "abort", []⟩) = CorrOutcome.abortRaised ∧
    async_message_request_receive (some ⟨false, some "boom", []⟩) =
      CorrOutcome.errorRaised (some "boom") ∧
    async_message_request_receive (some ⟨true, none, [("payload", "x")]⟩) =
      CorrOutcome.returned ⟨true, none, [("payload", "x")]⟩ :=
  ⟨(correlator_response_classification ⟨false, some "abort", []⟩).1 rfl rfl,
   (correlator_response_classification ⟨false, some "boom", []⟩).2.1 rfl (by decide),
   (correlator_response_classification ⟨true, none, [("payload", "x")]⟩).2.2 rfl⟩

/-! ## Claim C9: request_id assignment -/

/-- Counterexample to C9 as stated: a request that already carries
request_id "abc" is not sent unchanged; utils.py line 33 overwrites the
field with the fresh uuid hex before sending. -/
theorem correlator_request_id_overwrite_counterexample :
    async_message_request_send "0123456789abcdef0123456789abcdef"
        ⟨some "abc", [("client", "c1")]⟩ ≠
      ⟨some "abc", [("client", "c1")]⟩ ∧
    (async_message_request_send "0123456789abcdef0123456789abcdef"
        ⟨some "abc", [("client", "c1")]⟩).request_id =
      some "0123456789abcdef0123456789abcdef" := by
  constructor
  · decide
  · decide

/-- Claim C9 (amended): the correlator assigns a fresh UUID-hex request_id to
every request, overwriting any value already present; every other field of
the request is sent to the daemon unchanged. -/
theorem correlator_request_id_always_fresh (fresh : String) (request : CorrRequest) :
    (async_message_request_send fresh request).request_id = some fresh ∧
    (async_message_request_send fresh request).fields = request.fields :=
  ⟨rfl, rfl⟩

/-! ## String helpers that evaluate in the kernel -/

/-- Python str.split on a single character. -/
def listSplitOn (c : Char) : List Char → List Char → List (List Char)
  | [], acc => [acc.reverse]
  | x :: xs, acc => if x = c then acc.reverse :: listSplitOn c xs [] else listSplitOn c xs (x :: acc)

/-- Python s.split(c) for a one-character separator. -/
def splitOnChar (c : Char) (s : String) : List String :=
  (listSplitOn c s.toList []).map String.mk

/-- Python str.lstrip(). -/
def strLStrip (s : String) : String :=
  String.mk (s.toList.dropWhile Char.isWhitespace)

/-- Python str.rstrip(). -/
def strRStrip (s : String) : String :=
  String.mk ((s.toList.reverse.dropWhile Char.isWhitespace).reverse)

/-- Python str.strip(). -/
def strStrip (s : String) : String := strLStrip (strRStrip s)

/-- Python str.startswith(p). -/
def strStartsWith (s p : String) : Bool := p.toList.isPrefixOf s.toList

/-- Python membership of a single character in a string. -/
def strContainsChar (s : String) (c : Char) : Bool := s.toList.contains c

/-- Drop the first n characters of a string. -/
def strDrop (s : String) (n : Nat) : String := String.mk (s.toList.drop n)

/-! ## Native IBM MQ handler embedding (grizzly_extras/async_message/mq.py) -/

/-- CMQC constants referenced by the handler (values from IBM MQ cmqc.h). -/
def MQGMO_WAIT : Nat := 1

/-- CMQC constant MQGMO_FAIL_IF_QUIESCING. -/
def MQGMO_FAIL_IF_QUIESCING : Nat := 8192

/-- CMQC constant MQGMO_BROWSE_FIRST. -/
def MQGMO_BROWSE_FIRST : Nat := 16

/-- CMQC constant MQGMO_BROWSE_NEXT. -/
def MQGMO_BROWSE_NEXT : Nat := 32

/-- CMQC constant MQMO_MATCH_MSG_ID. -/
def MQMO_MATCH_MSG_ID : Nat := 1

/-- The GMO fields this code touches: Options, WaitInterval and
MatchOptions. MatchOptions none means the code left the pymqi default
untouched. -/
structure GMO where
  Options : Nat
  WaitInterval : Int
  MatchOptions : Option Nat
deriving DecidableEq, Repr

/-- mq.py _create_gmo (lines 110-126): a WAIT | FAIL_IF_QUIESCING GMO with
WaitInterval message_wait * 1000 when message_wait is a positive number,
otherwise a default GMO; MatchOptions = MQMO_MATCH_MSG_ID when matching;
Options |= MQGMO_BROWSE_FIRST when browsing. -/
def create_gmo (message_wait : Option Int) (matching browsing : Bool) : GMO :=
  let gmo : GMO :=
    match message_wait with
    | some w =>
        if w > 0 then
          { Options := MQGMO_WAIT ||| MQGMO_FAIL_IF_QUIESCING,
            WaitInterval := w * 1000, MatchOptions := none }
        else { Options := 0, WaitInterval := 0, MatchOptions := none }
    | none => { Options := 0, WaitInterval := 0, MatchOptions := none }
  let gmo2 := if matching then { gmo with MatchOptions := some MQMO_MATCH_MSG_ID } else gmo
  if browsing then { gmo2 with Options := gmo2.Options ||| MQGMO_BROWSE_FIRST } else gmo2

/-- Python int() truncation toward zero applied to a monotonic-clock
difference. -/
def pyInt (q : ℚ) : Int := if 0 ≤ q then q.floor else q.ceil

/-- Python a or b for an optional integer a (both None and 0 are falsy). -/
def pyOrInt (a : Option Int) (b : Int) : Int :=
  match a with
  | some v => if v = 0 then b else v
  | none => b

/-- A message browsed on the queue: its descriptor MsgId and its payload. -/
structure MQMessage where
  MsgId : String
  payload : String
deriving DecidableEq, Repr

/-- The exceptions that can leave the embedded handler code. -/
inductive AMErr where
  | asyncMessageError (msg : String)
  | attributeError
  | valueError (msg : String)
  | nameError
  | keyError (key : String)
  | mqError (msg : String)
deriving DecidableEq, Repr

/-- The timeout error message raised by _find_message (mq.py line 178). -/
def mqTimeoutMessage : String :=
  "AsyncMessageQueueHandler: timeout while waiting for matching message"

/-- One browse pass of _find_message (mq.py lines 144-173): browse the
messages currently on the queue in order (BROWSE_FIRST then BROWSE_NEXT),
transform each payload and apply the compiled expression; the first message
whose expression yields at least one value ends the search with its message
id; MQRC_NO_MSG_AVAILABLE at the end of the queue ends the pass with no
match; a transformer failure raises AsyncMessageError. -/
def browsePass (transform : String → Except String String)
    (get_values : String → List String) : List MQMessage → Except AMErr (Option String)
  | [] => Except.ok none
  | m :: rest =>
      match transform m.payload with
      | Except.error e =>
          Except.error (AMErr.asyncMessageError ("AsyncMessageQueueHandler: " ++ e))
      | Except.ok payload2 =>
          if (get_values payload2).length > 0 then Except.ok (some m.MsgId)
          else browsePass transform get_values rest

/-- How one iteration of the _find_message outer loop ends. -/
inductive FindStep where
  | found (msgId : String)
  | raised (e : AMErr)
  | sleepRetry (ms : Nat)
deriving DecidableEq, Repr

/-- The decision at the end of one _find_message outer-loop iteration
(mq.py lines 143-181): a browse-pass error or match is final; with no match,
raise the timeout error when elapsed >= message_wait (and message_wait is
not None), otherwise sleep 500 milliseconds and run another pass. -/
def findMessageStep (passResult : Except AMErr (Option String)) (elapsed : ℚ)
    (message_wait : Option Int) : FindStep :=
  match passResult with
  | Except.error e => FindStep.raised e
  | Except.ok (some msgId) => FindStep.found msgId
  | Except.ok none =>
      match message_wait with
      | some w =>
          if (w : ℚ) ≤ elapsed then
            FindStep.raised (AMErr.asyncMessageError mqTimeoutMessage)
          else FindStep.sleepRetry 500
      | none => FindStep.sleepRetry 500

/-- The _find_message outer loop from pass k onwards. passes k gives the
messages browsed in pass k, elapsedAt k the monotonic-clock reading relative
to start_time at the end-of-pass check. The loop itself is unbounded (with
message_wait None and no match it never ends), so fuel bounds the number of
passes; none means the fuel ran out. -/
def findMessageFrom (transform : String → Except String String)
    (get_values : String → List String) (passes : Nat → List MQMessage)
    (elapsedAt : Nat → ℚ) (message_wait : Option Int) :
    Nat → Nat → Option (Except AMErr String)
  | 0, _ => none
  | fuel + 1, k =>
      match findMessageStep (browsePass transform get_values (passes k))
          (elapsedAt k) message_wait with
      | FindStep.found msgId => some (Except.ok msgId)
      | FindStep.raised e => some (Except.error e)
      | FindStep.sleepRetry _ =>
          findMessageFrom transform get_values passes elapsedAt message_wait fuel (k + 1)

/-- Environment of the native _request: the transformer registry entry for
the request content type (none models no transformer registered), the
compiled-expression factory, the queue contents per browse pass, the clock
readings, and the backend queue.get / queue.put results. These model the
transformer module and the MQ server, which are outside the embedded code. -/
structure MQEnv where
  content_type_name : String
  transform : Option (String → Except String String)
  parser0 : String → Except String (String → List String)
  passes : Nat → List MQMessage
  elapsedAt : Nat → ℚ
  findElapsed : ℚ
  fuel : Nat
  qget : GMO → Option String → Except String (String × List (String × String))
  qput : Option String → List (String × String)

/-- mq.py _find_message (lines 128-181): look up the transformer, compile
the expression, then run browse passes from pass 0. -/
def find_message (env : MQEnv) (expression : String) (message_wait : Option Int) :
    Option (Except AMErr String) :=
  match env.transform with
  | none =>
      some (Except.error (AMErr.asyncMessageError
        ("AsyncMessageQueueHandler: could not find a transformer for " ++
          env.content_type_name)))
  | some tr =>
      match env.parser0 expression with
      | Except.error e =>
          some (Except.error (AMErr.asyncMessageError ("AsyncMessageQueueHandler: " ++ e)))
      | Except.ok gv => findMessageFrom tr gv env.passes env.elapsedAt message_wait env.fuel 0

/-- mq.py line 202: re.sub removing an optional leading-whitespace "queue:"
prefix (with trailing whitespace) from the endpoint; when the pattern does
not match, the endpoint is unchanged. -/
def stripQueueLabel (endpoint : String) : String :=
  let t := strLStrip endpoint
  if strStartsWith t "queue:" then strLStrip (strDrop t 6) else endpoint

/-- The queue name and optional expression extracted from a native endpoint
string. -/
structure ParsedEndpoint where
  queue_name : String
  expression : Option String
deriving DecidableEq, Repr

/-- mq.py lines 199-209: native endpoint parsing. A comma splits the string
into exactly two stripped parts (any other number raises ValueError from
tuple unpacking); the second part must start with "expression:", but the
error message of that branch evaluates request.endpoint on a dict, so the
code actually raises AttributeError there; the re.sub on line 209 keeps what
follows "expression:" left-stripped, except that with nothing after the
colon the pattern does not match and the part is kept whole. -/
def parseEndpointNative (endpoint : String) : Except AMErr ParsedEndpoint :=
  let qn := stripQueueLabel endpoint
  if strContainsChar qn ',' then
    match (splitOnChar ',' qn).map strStrip with
    | [q, e] =>
        if strStartsWith e "expression:" then
          let rest := strDrop e 11
          Except.ok { queue_name := q,
                      expression := some (if rest = "" then e else strLStrip rest) }
        else Except.error AMErr.attributeError
    | _ => Except.error (AMErr.valueError "values to unpack")
  else Except.ok { queue_name := qn, expression := none }

/-- The native MQ handler state read by _request: whether connect has run
(qmgr is set) and the default message_wait recorded at connect. -/
structure MQNativeState where
  qmgr : Bool
  message_wait : Int
deriving DecidableEq, Repr

/-- The request fields read by the native _request. -/
structure MQRequest where
  action : String
  endpoint : Option String
  context_message_wait : Option Int
  payload : Option String
deriving DecidableEq, Repr

/-- The backend queue operation performed by the native _request: the queue
it opens (browsing false means normal destructive mode), the GMO it passes
and the MsgId preset in the message descriptor. -/
inductive MQOp where
  | putOp (queue_name : String) (payload : Option String)
  | getOp (queue_name : String) (browsing : Bool) (gmo : GMO) (mdMsgId : Option String)
deriving DecidableEq, Repr

/-- The response dict built at the end of the native _request. -/
structure MQNativeResponse where
  payload : Option String
  metadata : List (String × String)
  response_length : Nat
deriving DecidableEq, Repr

/-- mq.py _request (lines 190-253). Returns none when the browse loop ran
out of fuel; otherwise the raised exception or the performed backend
operation together with the response. The source branch raising
"no matching message found" is unreachable (_find_message never returns
None) and is not modelled; an action other than PUT or GET reaches the
response dict with unbound locals, raising NameError. -/
def mq_request (st : MQNativeState) (env : MQEnv) (request : MQRequest) :
    Option (Except AMErr (MQOp × MQNativeResponse)) :=
  if st.qmgr = false then some (Except.error (AMErr.asyncMessageError "not connected"))
  else
    match request.endpoint with
    | none => some (Except.error (AMErr.asyncMessageError "no endpoint specified"))
    | some endpoint =>
        match parseEndpointNative endpoint with
        | Except.error e => some (Except.error e)
        | Except.ok pe =>
            let action := request.action
            let message_wait : Int := pyOrInt request.context_message_wait st.message_wait
            let fetchIdResult : Option (Except AMErr (Option String)) :=
              match pe.expression with
              | some expr =>
                  if action = "GET" then
                    match find_message env expr (some message_wait) with
                    | none => none
                    | some (Except.error e) => some (Except.error e)
                    | some (Except.ok msgId) => some (Except.ok (some msgId))
                  else some (Except.ok none)
              | none => some (Except.ok none)
            match fetchIdResult with
            | none => none
            | some (Except.error e) => some (Except.error e)
            | some (Except.ok msg_id_to_fetch) =>
                let message_wait2 : Int :=
                  match msg_id_to_fetch with
                  | some _ => message_wait - pyInt env.findElapsed
                  | none => message_wait
                if action = "PUT" then
                  let payload := request.payload
                  let response_length := match payload with | some p => p.length | none => 0
                  let md2 := env.qput payload
                  some (Except.ok (MQOp.putOp pe.queue_name payload,
                    { payload := payload, metadata := md2, response_length := response_length }))
                else if action = "GET" then
                  let matching : Bool :=
                    match msg_id_to_fetch with
                    | some msgId => msgId != ""
                    | none => false
                  let gmo :=
                    if matching then create_gmo (some message_wait2) true false
                    else create_gmo (some message_wait2) false false
                  let mdMsgId : Option String :=
                    if matching then msg_id_to_fetch else none
                  match env.qget gmo mdMsgId with
                  | Except.error e => some (Except.error (AMErr.mqError e))
                  | Except.ok (payload, md2) =>
                      some (Except.ok (MQOp.getOp pe.queue_name false gmo mdMsgId,
                        { payload := some payload, metadata := md2,
                          response_length := payload.length }))
                else some (Except.error AMErr.nameError)

/-! ## Claim C3: browse-then-fetch destructive get -/

/-- Claim C3: in the native MQ handler, for a GET whose endpoint carries an
expression, once the browse phase returns a message id the handler subtracts
the truncated elapsed browse time from message_wait, opens the queue in
normal (non-browse) mode, and issues a destructive get whose GMO carries
MatchOptions = MQMO_MATCH_MSG_ID and whose message descriptor is preset with
the saved message id, returning that message payload and metadata. -/
theorem mq_browse_then_fetch_destructive_get
    (st : MQNativeState) (env : MQEnv) (request : MQRequest)
    (endpoint qn expr msgId payload2 : String) (md2 : List (String × String))
    (hconn : st.qmgr = true)
    (haction : request.action = "GET")
    (hep : request.endpoint = some endpoint)
    (hparse : parseEndpointNative endpoint =
      Except.ok { queue_name := qn, expression := some expr })
    (hfind : find_message env expr
        (some (pyOrInt request.context_message_wait st.message_wait)) =
      some (Except.ok msgId))
    (hid : msgId ≠ "")
    (hqget : env.qget
        (create_gmo (some (pyOrInt request.context_message_wait st.message_wait -
          pyInt env.findElapsed)) true false) (some msgId) = Except.ok (payload2, md2)) :
    (create_gmo (some (pyOrInt request.context_message_wait st.message_wait -
        pyInt env.findElapsed)) true false).MatchOptions = some MQMO_MATCH_MSG_ID ∧
    mq_request st env request =
      some (Except.ok (MQOp.getOp qn false
        (create_gmo (some (pyOrInt request.context_message_wait st.message_wait -
          pyInt env.findElapsed)) true false) (some msgId),
        { payload := some payload2, metadata := md2,
          response_length := payload2.length })) := by
  constructor
  · unfold create_gmo
    dsimp only
    split <;> rfl
  · unfold mq_request
    rw [hconn, hep]
    dsimp only
    rw [hparse]
    dsimp only
    rw [haction]
    simp only [hfind]
    simp [hid, hqget]

/-- Witness for C3: a concrete browse-then-fetch run. message_wait 10,
elapsed browse time 2.0 seconds, found id ID1; the fetch GMO is
WAIT | FAIL_IF_QUIESCING with WaitInterval 8000 ms and
MatchOptions MQMO_MATCH_MSG_ID, and the response carries the fetched
payload and metadata. -/
theorem mq_browse_then_fetch_destructive_get_witness :
    parseEndpointNative "queue:Q1, expression:$.x" =
      Except.ok { queue_name := "Q1", expression := some "$.x" } ∧
    find_message
      ⟨"JSON", some (fun s => Except.ok s),
        fun _ => Except.ok (fun s => if s = "hit" then ["v"] else []),
        fun _ => [⟨"ID1", "hit"⟩], fun _ => 0, 2, 1,
        fun _ _ => Except.ok ("hit", [("MsgId", "ID1")]), fun _ => []⟩
      "$.x" (some 10) = some (Except.ok "ID1") ∧
    create_gmo (some (pyOrInt (some 10) 0 - pyInt 2)) true false =
      ⟨8193, 8000, some MQMO_MATCH_MSG_ID⟩ ∧
    mq_request ⟨true, 0⟩
      ⟨"JSON", some (fun s => Except.ok s),
        fun _ => Except.ok (fun s => if s = "hit" then ["v"] else []),
        fun _ => [⟨"ID1", "hit"⟩], fun _ => 0, 2, 1,
        fun _ _ => Except.ok ("hit", [("MsgId", "ID1")]), fun _ => []⟩
      ⟨"GET", some "queue:Q1, expression:$.x", some 10, none⟩ =
      some (Except.ok (MQOp.getOp "Q1" false
        (create_gmo (some (pyOrInt (some 10) 0 - pyInt 2)) true false) (some "ID1"),
        { payload := some "hit", metadata := [("MsgId", "ID1")],
          response_length := "hit".length })) :=
  ⟨rfl, rfl, rfl,
    (mq_browse_then_fetch_destructive_get ⟨true, 0⟩
      ⟨"JSON", some (fun s => Except.ok s),
        fun _ => Except.ok (fun s => if s = "hit" then ["v"] else []),
        fun _ => [⟨"ID1", "hit"⟩], fun _ => 0, 2, 1,
        fun _ _ => Except.ok ("hit", [("MsgId", "ID1")]), fun _ => []⟩
      ⟨"GET", some "queue:Q1, expression:$.x", some 10, none⟩
      "queue:Q1, expression:$.x" "Q1" "$.x" "ID1" "hit" [("MsgId", "ID1")]
      rfl rfl rfl rfl rfl (by decide) rfl).2⟩

/-! ## Claim C4: browse-phase timeout discipline -/

/-- Counterexample to C4 as stated: with message_wait 5 and a browse pass
ending with no match at exactly 5 seconds elapsed, the elapsed time does not
exceed message_wait, yet the handler raises the timeout error instead of
sleeping 500 ms and starting another pass, because the source check on
mq.py line 177 uses greater-or-equal. -/
theorem mq_find_message_timeout_boundary_counterexample :
    findMessageStep (Except.ok none) 5 (some 5) =
      FindStep.raised (AMErr.asyncMessageError mqTimeoutMessage) ∧
    findMessageStep (Except.ok none) 5 (some 5) ≠ FindStep.sleepRetry 500 ∧
    ¬ ((5 : ℚ) > ((5 : Int) : ℚ)) := by
  refine ⟨?_, ?_, ?_⟩
  · decide
  · decide
  · decide

/-- Claim C4 (amended): in the browse phase, every browse pass that ends
with no matching message is followed by a 500 ms sleep and another pass,
except that when the total elapsed time since the search started is at least
(greater than or equal to) message_wait the handler instead raises the
timeout error, whose message contains "timeout while waiting for matching
message", without sleeping again; with message_wait None the loop always
sleeps and retries. -/
theorem mq_find_message_timeout_or_retry
    (transform : String → Except String String) (get_values : String → List String)
    (passes : Nat → List MQMessage) (elapsedAt : Nat → ℚ) (w : Int) (fuel k : Nat)
    (hpass : browsePass transform get_values (passes k) = Except.ok none) :
    ((w : ℚ) ≤ elapsedAt k →
        findMessageFrom transform get_values passes elapsedAt (some w) (fuel + 1) k =
          some (Except.error (AMErr.asyncMessageError mqTimeoutMessage)) ∧
        ("timeout while waiting for matching message").toList <:+: mqTimeoutMessage.toList) ∧
    (elapsedAt k < (w : ℚ) →
        findMessageStep (Except.ok none) (elapsedAt k) (some w) = FindStep.sleepRetry 500 ∧
        findMessageFrom transform get_values passes elapsedAt (some w) (fuel + 1) k =
          findMessageFrom transform get_values passes elapsedAt (some w) fuel (k + 1)) ∧
    findMessageFrom transform get_values passes elapsedAt none (fuel + 1) k =
      findMessageFrom transform get_values passes elapsedAt none fuel (k + 1) := by
  refine ⟨?_, ?_, ?_⟩
  · intro hle
    constructor
    · unfold findMessageFrom
      rw [hpass]
      unfold findMessageStep
      simp [hle]
    · exact ⟨("AsyncMessageQueueHandler: ").toList, [], by decide⟩
  · intro hlt
    have hstep : findMessageStep (browsePass transform get_values (passes k))
        (elapsedAt k) (some w) = FindStep.sleepRetry 500 := by
      rw [hpass]
      unfold findMessageStep
      simp [not_le.mpr hlt]
    constructor
    · rw [hpass] at hstep
      exact hstep
    · conv_lhs => rw [findMessageFrom]
      rw [hstep]
  · have hstep : findMessageStep (browsePass transform get_values (passes k))
        (elapsedAt k) none = FindStep.sleepRetry 500 := by
      rw [hpass]
      rfl
    conv_lhs => rw [findMessageFrom]
    rw [hstep]

/-- Witness for the amended C4: empty queue, message_wait 5, first check at
6 seconds elapsed: the search ends with the timeout error. -/
theorem mq_find_message_timeout_or_retry_witness :
    browsePass (fun s => Except.ok s) (fun _ => []) ((fun _ => ([] : List MQMessage)) 0) =
      Except.ok none ∧
    ((5 : Int) : ℚ) ≤ (fun _ => (6 : ℚ)) 0 ∧
    findMessageFrom (fun s => Except.ok s) (fun _ => []) (fun _ => [])
      (fun _ => 6) (some 5) 1 0 =
      some (Except.error (AMErr.asyncMessageError mqTimeoutMessage)) :=
  ⟨rfl, by decide,
    ((mq_find_message_timeout_or_retry (fun s => Except.ok s) (fun _ => [])
      (fun _ => []) (fun _ => 6) 5 0 0 rfl).1 (by decide)).1⟩

/-! ## HTTP-transport MQ handler embedding (grizzly_extras/async_message/mq/) -/

/-- Python str() of an optional string in an f-string (None renders as
"None"). -/
def pyStrOpt (o : Option String) : String :=
  match o with
  | some s => s
  | none => "None"

/-- Python str(message.get(key, 0)) for an optional field (absent renders as
"0"). -/
def pyStrOr0 (o : Option String) : String :=
  match o with
  | some s => s
  | none => "0"

/-- Split a string at the first occurrence of a character. -/
def splitFirstChar (c : Char) (s : String) : Option (String × String) :=
  go s.toList []
where
  go : List Char → List Char → Option (String × String)
    | [], _ => none
    | x :: xs, acc =>
        if x = c then some (String.mk acc.reverse, String.mk xs) else go xs (x :: acc)

/-- Modelled from the spec: grizzly_extras.arguments.parse_arguments is not
in the source tree. Per the spec, the endpoint parser splits on commas,
trims whitespace, and reads key/value pairs joined by the separator; a part
without the separator is a ValueError. -/
def parse_arguments (endpoint : String) (separator : Char) :
    Except String (List (String × String)) :=
  go ((splitOnChar ',' endpoint).map strStrip)
where
  go : List String → Except String (List (String × String))
    | [] => Except.ok []
    | p :: rest =>
        match splitFirstChar separator p with
        | none => Except.error ("incorrect format of argument: " ++ p)
        | some (k, v) =>
            match go rest with
            | Except.error e => Except.error e
            | Except.ok acc => Except.ok ((strStrip k, strStrip v) :: acc)

/-- Modelled from the spec: grizzly_extras.arguments.get_unsupported_arguments
is not in the source tree. Per the spec it returns the parsed keys that are
outside the supported list. -/
def get_unsupported_arguments (supported : List String)
    (args : List (String × String)) : List String :=
  (args.map Prod.fst).filter (fun k => !supported.contains k)

/-- Python ", ".join. -/
def joinCommaSpace : List String → String
  | [] => ""
  | [x] => x
  | x :: rest => x ++ ", " ++ joinCommaSpace rest

/-- Python int() on a string: optional sign and decimal digits surrounded by
whitespace; anything else raises ValueError. -/
def pyParseInt (s : String) : Except String Int :=
  let cs := (strStrip s).toList
  let signed : Int × List Char :=
    match cs with
    | '-' :: rest => (-1, rest)
    | '+' :: rest => (1, rest)
    | l => (1, l)
  if !signed.2.isEmpty && signed.2.all Char.isDigit then
    Except.ok (signed.1 *
      ((signed.2.foldl (fun acc c => acc * 10 + (c.toNat - 48)) 0 : Nat) : Int))
  else Except.error ("invalid literal for int() with base 10: " ++ s)

/-- Python len(s.encode()): the UTF-8 byte length of a string. -/
def strUtf8Len (s : String) : Nat :=
  s.toList.foldl (fun a c => a + c.utf8Size) 0

/-- Does the pattern occur as a substring (Python: pat in s)? -/
def containsSub (s pat : String) : Bool :=
  go s.toList
where
  go : List Char → Bool
    | [] => pat.toList.isPrefixOf []
    | x :: xs => pat.toList.isPrefixOf (x :: xs) || go xs

/-- The state of the HTTP-variant AsyncMessageQueueHandler: the requests
session (true when open), the url recorded at CONN, and the connection
defaults. -/
structure MQHttpState where
  session : Bool
  url : Option String
  message_wait : Int
  header_type : Option String
deriving DecidableEq, Repr

/-- mq/__init__.py close (lines 31-35): close and drop the session when one
is open. -/
def http_close (st : MQHttpState) : MQHttpState :=
  if st.session then { st with session := false } else st

/-- mq/__init__.py disconnect (lines 38-45): close, set session to None
again, and answer "disconnected". -/
def http_disconnect (st : MQHttpState) : MQHttpState × String :=
  ({ http_close st with session := false }, "disconnected")

/-- Modelled from the spec: the register decorator in
grizzly_extras/async_message/__init__.py is not in the source tree. Per the
spec it populates a mapping from action string to method reference,
registering aliases as several keys pointing at the same reference; the
test test_register pins that an already-registered action is not
overwritten. -/
def register {α : Type} (hs : List (String × α)) (actions : List String) (f : α) :
    List (String × α) :=
  actions.foldl (fun acc a => if (dget acc a).isSome then acc else acc ++ [(a, f)]) hs

/-- Method references of the native mq.py handlers dict. -/
inductive NativeHandlerRef where
  | connect
  | put
  | get
deriving DecidableEq, Repr

/-- The native mq.py module-level handlers dict, populated by the register
decorations in source order: CONN (line 55), PUT/SEND (line 255),
GET/RECEIVE (line 264). There is no DISC registration in this module. -/
def mqNativeHandlers : List (String × NativeHandlerRef) :=
  register (register (register [] ["CONN"] NativeHandlerRef.connect)
    ["PUT", "SEND"] NativeHandlerRef.put) ["GET", "RECEIVE"] NativeHandlerRef.get

/-- mq.py get_handler (lines 273-274). -/
def mqNativeGetHandler (action : String) : Option NativeHandlerRef :=
  dget mqNativeHandlers action

/-- Method references of the HTTP-variant handlers dict. -/
inductive HttpHandlerRef where
  | disconnect
  | connect
  | put
  | get
deriving DecidableEq, Repr

/-- The HTTP-variant module-level handlers dict, populated in source order:
DISC (line 38), CONN (line 48), PUT/SEND (line 178), GET/RECEIVE
(line 188). -/
def mqHttpHandlers : List (String × HttpHandlerRef) :=
  register (register (register (register [] ["DISC"] HttpHandlerRef.disconnect)
    ["CONN"] HttpHandlerRef.connect) ["PUT", "SEND"] HttpHandlerRef.put)
    ["GET", "RECEIVE"] HttpHandlerRef.get

/-- The message fields parsed from a successful GET response body
(mq/__init__.py line 150): Body, PutDate, PutTime, MessageId; absent fields
are none. -/
structure HttpMsg where
  Body : Option String
  PutDate : Option String
  PutTime : Option String
  MessageId : Option String
deriving DecidableEq, Repr

/-- mq/__init__.py _get_safe_message_descriptor (lines 74-81). -/
def get_safe_message_descriptor (m : HttpMsg) : List (String × String) :=
  [("PutDate", pyStrOr0 m.PutDate), ("PutTime", pyStrOr0 m.PutTime),
   ("MsgId", pyStrOr0 m.MessageId)]

/-- The requests-level backend operations the HTTP _request performs. -/
inductive HttpOp where
  | post (url : String) (body : String) (timeout : Int)
  | httpGet (url : String) (timeout : Int)
deriving DecidableEq, Repr

/-- What one attempt of the GET retry loop yields (mq/__init__.py lines
141-162): either the parsed message, or an exception rendered as str(e)
(a status of 400 or more raises an AsyncMessageError inside the try block
whose text is then re-examined by the except clause). -/
inductive HttpGetResult where
  | gotMessage (m : HttpMsg)
  | excString (emsg : String)
deriving DecidableEq, Repr

/-- The environment of the HTTP _request: the POST outcome and the per-retry
GET outcomes; these model the remote HTTP stub. -/
structure HttpEnv where
  postStatus : Nat
  postText : String
  getResults : Nat → HttpGetResult

/-- The GET retry loop of mq/__init__.py lines 138-162: up to max_retries
(5) attempts; only exceptions whose text contains "RemoteDisconnected" are
retried (after a jittered sleep), any other exception becomes an
AsyncMessageError at once; the fifth consecutive retryable failure gives up
with an "after 5 attempts" error. The fuel argument starts at 5 and bounds
the recursion; it never runs out because retries grows in step with it. -/
def httpGetLoop (env : HttpEnv) (geturl : String) (timeout : Int)
    (request_id qn : Option String) : Nat → Nat → List HttpOp × Except AMErr HttpMsg
  | _, 0 => ([], Except.error (AMErr.asyncMessageError "loop fuel exhausted"))
  | retries, fuel + 1 =>
      match env.getResults retries with
      | HttpGetResult.gotMessage m => ([HttpOp.httpGet geturl timeout], Except.ok m)
      | HttpGetResult.excString e =>
          if containsSub e "RemoteDisconnected" then
            if retries + 1 < 5 then
              let rec2 := httpGetLoop env geturl timeout request_id qn (retries + 1) fuel
              (HttpOp.httpGet geturl timeout :: rec2.1, rec2.2)
            else
              ([HttpOp.httpGet geturl timeout],
                Except.error (AMErr.asyncMessageError
                  ("DEBUG request_id " ++ pyStrOpt request_id ++
                    " failed to GET message from " ++ pyStrOpt qn ++ " after " ++
                    toString (retries + 1) ++ " attempts: " ++ e)))
          else
            ([HttpOp.httpGet geturl timeout], Except.error (AMErr.asyncMessageError e))

/-- The request fields read by the HTTP _request. -/
structure HttpRequest where
  action : String
  request_id : Option String
  endpoint : Option String
  context_message_wait : Option Int
  payload : Option String
deriving DecidableEq, Repr

/-- The response dict built at the end of the HTTP _request. -/
structure HttpResponseModel where
  payload : Option String
  metadata : List (String × String)
  response_length : Nat
deriving DecidableEq, Repr

/-- mq/__init__.py _request (lines 83-175): validation, endpoint-argument
parsing and the PUT / GET branches. The result pairs the backend operations
performed with the raised exception or the response. An action other than
PUT or GET reaches the logging line that reads the unbound response_length
local, raising NameError. -/
def http_request (st : MQHttpState) (env : HttpEnv) (request : HttpRequest) :
    List HttpOp × Except AMErr HttpResponseModel :=
  if st.session = false then ([], Except.error (AMErr.asyncMessageError "not connected"))
  else
    match request.endpoint with
    | none => ([], Except.error (AMErr.asyncMessageError "no endpoint specified"))
    | some endpoint =>
        match parse_arguments endpoint ':' with
        | Except.error e => ([], Except.error (AMErr.asyncMessageError e))
        | Except.ok arguments =>
            let unsupported :=
              get_unsupported_arguments ["queue", "expression", "max_message_size"] arguments
            if unsupported.length > 0 then
              ([], Except.error (AMErr.asyncMessageError
                ("arguments " ++ joinCommaSpace unsupported ++ " is not supported")))
            else
              let queue_name := dget arguments "queue"
              let expression := dget arguments "expression"
              match pyParseInt ((dget arguments "max_message_size").getD "0") with
              | Except.error e => ([], Except.error (AMErr.valueError e))
              | Except.ok _ =>
                  let action := request.action
                  if action ≠ "GET" ∧ expression.isSome then
                    ([], Except.error (AMErr.asyncMessageError
                      ("argument expression is not allowed for action " ++ action)))
                  else
                    let message_wait := pyOrInt request.context_message_wait st.message_wait
                    let urlStr := pyStrOpt st.url ++ "/" ++ pyStrOpt queue_name
                    if action = "PUT" then
                      let payload := request.payload
                      let response_length :=
                        match payload with
                        | some p => p.length
                        | none => 0
                      if env.postStatus ≥ 400 then
                        ([HttpOp.post urlStr (payload.getD "") message_wait],
                          Except.error (AMErr.asyncMessageError
                            ("DEBUG request_id " ++ pyStrOpt request.request_id ++
                              " failed to PUT message to " ++ pyStrOpt queue_name ++
                              ", status code " ++ toString env.postStatus ++ ": " ++
                              env.postText)))
                      else
                        ([HttpOp.post urlStr (payload.getD "") message_wait],
                          Except.ok
                            { payload := payload,
                              metadata := get_safe_message_descriptor ⟨none, none, none, none⟩,
                              response_length := response_length })
                    else if action = "GET" then
                      let looped := httpGetLoop env urlStr message_wait request.request_id
                        queue_name 0 5
                      match looped.2 with
                      | Except.error e => (looped.1, Except.error e)
                      | Except.ok m =>
                          match m.Body with
                          | none => (looped.1, Except.error (AMErr.keyError "Body"))
                          | some body =>
                              (looped.1, Except.ok
                                { payload := some body,
                                  metadata := get_safe_message_descriptor m,
                                  response_length := strUtf8Len body })
                    else ([], Except.error AMErr.nameError)

/-! ## Claim C6: endpoint arguments are restricted to three keys -/

/-- Claim C6: the HTTP-variant MQ handler accepts only the endpoint keys
queue, expression and max_message_size. For every endpoint whose parsed
arguments contain any other key, _request raises an AsyncMessageError whose
deterministic message names exactly the unsupported keys, and no backend
operation is performed; the unsupported keys are precisely the parsed keys
outside the supported three. -/
theorem http_request_unsupported_arguments
    (st : MQHttpState) (env : HttpEnv) (request : HttpRequest)
    (endpoint : String) (args : List (String × String))
    (hconn : st.session = true)
    (hep : request.endpoint = some endpoint)
    (hparse : parse_arguments endpoint ':' = Except.ok args)
    (hun : get_unsupported_arguments ["queue", "expression", "max_message_size"] args ≠ []) :
    http_request st env request =
      ([], Except.error (AMErr.asyncMessageError
        ("arguments " ++
          joinCommaSpace
            (get_unsupported_arguments ["queue", "expression", "max_message_size"] args) ++
          " is not supported"))) ∧
    (∀ k, k ∈ get_unsupported_arguments ["queue", "expression", "max_message_size"] args ↔
      (k ∈ args.map Prod.fst ∧
        k ∉ (["queue", "expression", "max_message_size"] : List String))) := by
  constructor
  · unfold http_request
    rw [hconn, hep]
    dsimp only
    rw [hparse]
    dsimp only
    have hlen : 0 <
        (get_unsupported_arguments ["queue", "expression", "max_message_size"] args).length :=
      List.length_pos.mpr hun
    simp [hlen]
  · intro k
    unfold get_unsupported_arguments
    simp [List.mem_filter]

/-- Witness for C6: endpoint "queue:Q, foo:bar" is rejected with the message
naming foo, and no backend operation happens. -/
theorem http_request_unsupported_arguments_witness :
    parse_arguments "queue:Q, foo:bar" ':' = Except.ok [("queue", "Q"), ("foo", "bar")] ∧
    get_unsupported_arguments ["queue", "expression", "max_message_size"]
      [("queue", "Q"), ("foo", "bar")] = ["foo"] ∧
    http_request ⟨true, some "http://qm", 0, none⟩
      ⟨200, "", fun _ => HttpGetResult.excString "x"⟩
      ⟨"GET", none, some "queue:Q, foo:bar", none, none⟩ =
      ([], Except.error (AMErr.asyncMessageError
        ("arguments " ++
          joinCommaSpace
            (get_unsupported_arguments ["queue", "expression", "max_message_size"]
              [("queue", "Q"), ("foo", "bar")]) ++
          " is not supported"))) :=
  ⟨rfl, rfl,
    (http_request_unsupported_arguments ⟨true, some "http://qm", 0, none⟩
      ⟨200, "", fun _ => HttpGetResult.excString "x"⟩
      ⟨"GET", none, some "queue:Q, foo:bar", none, none⟩
      "queue:Q, foo:bar" [("queue", "Q"), ("foo", "bar")]
      rfl rfl rfl (by decide)).1⟩

/-! ## Claim C7: DISC closes the connection and is idempotent -/

/-- Claim C7: the HTTP-variant MQ handler registers a DISC action; on a
connected handler a first DISC succeeds with "disconnected" and actually
closes the session (the state changes), and a second DISC also answers
"disconnected" and leaves the exact same disconnected state. -/
theorem mq_disc_idempotent (st : MQHttpState) (hconn : st.session = true) :
    dget mqHttpHandlers "DISC" = some HttpHandlerRef.disconnect ∧
    (http_disconnect st).2 = "disconnected" ∧
    (http_disconnect st).1.session = false ∧
    (http_disconnect st).1 ≠ st ∧
    http_disconnect (http_disconnect st).1 = http_disconnect st := by
  refine ⟨by decide, rfl, ?_, ?_, ?_⟩
  · simp [http_disconnect]
  · intro h
    have : ((http_disconnect st).1).session = st.session := by rw [h]
    simp [http_disconnect, hconn] at this
  · unfold http_disconnect http_close
    simp [hconn]

/-- Witness for C7: a concrete connected handler state. -/
theorem mq_disc_idempotent_witness :
    dget mqHttpHandlers "DISC" = some HttpHandlerRef.disconnect ∧
    http_disconnect ⟨true, some "http://qm", 3, none⟩ =
      (⟨false, some "http://qm", 3, none⟩, "disconnected") ∧
    http_disconnect (http_disconnect ⟨true, some "http://qm", 3, none⟩).1 =
      http_disconnect ⟨true, some "http://qm", 3, none⟩ :=
  ⟨(mq_disc_idempotent ⟨true, some "http://qm", 3, none⟩ rfl).1, by decide,
    (mq_disc_idempotent ⟨true, some "http://qm", 3, none⟩ rfl).2.2.2.2⟩

/-! ## Dispatch wrapper (AsyncMessageHandler.handle) and Claim C5 -/

/-- The exception a dispatched handler method can raise: an
AsyncMessageError, or any other exception with its class name and text. -/
inductive HandlerExn where
  | amError (msg : String)
  | otherExn (cls : String) (msg : String)
deriving DecidableEq, Repr

/-- The payload part of a successful handler response. -/
structure HandlePartial where
  payload : Option String
  metadata : List (String × String)
  response_length : Nat
deriving DecidableEq, Repr

/-- The full response dict produced by the dispatch wrapper. -/
structure HandleResult where
  worker : String
  success : Bool
  message : Option String
  payload : Option String
  metadata : Option (List (String × String))
  response_length : Option Nat
  response_time : Nat
deriving DecidableEq, Repr

/-- Modelled from the spec: AsyncMessageHandler.handle lives in
grizzly_extras/async_message/__init__.py, which is not in the source tree.
Per the spec the wrapper looks the action up via get_handler, raises
AsyncMessageError "no implementation for <action>" when there is none,
brackets the dispatch with a monotonic clock for response_time, catches
every exception and turns it into an error response so a worker never dies
from a bad request. TestAsyncMessageHandler.test_handle pins the error
format: success false, the worker id, response_time set, and message
equal to the action, a colon, the exception class and its text in quotes. -/
def handle {H : Type} (worker : String) (get_handler : String → Option H)
    (run : H → Except HandlerExn HandlePartial) (action : String) (rt : Nat) :
    HandleResult :=
  match get_handler action with
  | none =>
      { worker := worker, success := false,
        message := some (action ++ ": AsyncMessageError=\"no implementation for " ++
          action ++ "\""),
        payload := none, metadata := none, response_length := none, response_time := rt }
  | some h =>
      match run h with
      | Except.ok pr =>
          { worker := worker, success := true, message := none, payload := pr.payload,
            metadata := some pr.metadata, response_length := some pr.response_length,
            response_time := rt }
      | Except.error (HandlerExn.amError m) =>
          { worker := worker, success := false,
            message := some (action ++ ": AsyncMessageError=\"" ++ m ++ "\""),
            payload := none, metadata := none, response_length := none, response_time := rt }
      | Except.error (HandlerExn.otherExn cls m) =>
          { worker := worker, success := false,
            message := some (action ++ ": " ++ cls ++ "=\"" ++ m ++ "\""),
            payload := none, metadata := none, response_length := none, response_time := rt }

/-- The steady-state request loop of daemon.py Worker.run (lines 70-139)
with an integration already bound and matching worker ids: every received
request is dispatched through the handle wrapper, exactly one response is
sent back, and the loop continues with the remaining requests whatever the
outcome was. Requests are an action string paired with their remaining
content, which only the dispatched method inspects. -/
def workerServe {H α : Type} (worker : String) (get_handler : String → Option H)
    (run : H → String × α → Except HandlerExn HandlePartial) (rt : Nat) :
    List (String × α) → List HandleResult
  | [] => []
  | r :: rest =>
      handle worker get_handler (fun h => run h r) r.1 rt ::
        workerServe worker get_handler run rt rest

/-- Claim C5: for every action string with no registered handler in the
native MQ registry (which after alias registration holds exactly CONN, PUT,
SEND, GET and RECEIVE), the dispatch wrapper returns success false with a
message containing "no implementation for <action>", and the worker then
serves the remaining requests instead of terminating. -/
theorem handle_unknown_action_error {α : Type} (worker action : String) (rt : Nat)
    (extra : α) (run : NativeHandlerRef → String × α → Except HandlerExn HandlePartial)
    (rest : List (String × α))
    (hno : dget mqNativeHandlers action = none) :
    (handle worker mqNativeGetHandler (fun h => run h (action, extra)) action rt).success =
      false ∧
    (handle worker mqNativeGetHandler (fun h => run h (action, extra)) action rt).message =
      some (action ++ ": AsyncMessageError=\"no implementation for " ++ action ++ "\"") ∧
    ("no implementation for " ++ action).toList <:+:
      (action ++ ": AsyncMessageError=\"no implementation for " ++ action ++ "\"").toList ∧
    workerServe worker mqNativeGetHandler run rt ((action, extra) :: rest) =
      handle worker mqNativeGetHandler (fun h => run h (action, extra)) action rt ::
        workerServe worker mqNativeGetHandler run rt rest := by
  have hgh : mqNativeGetHandler action = none := hno
  refine ⟨?_, ?_, ?_, rfl⟩
  · unfold handle
    rw [hgh]
  · unfold handle
    rw [hgh]
  · have hlit : ((": AsyncMessageError=\"") : String).data ++
        (("no implementation for ") : String).data =
        ((": AsyncMessageError=\"no implementation for ") : String).data := by decide
    refine ⟨action.toList ++ (": AsyncMessageError=\"").toList, ("\"").toList, ?_⟩
    simp only [String.toList, String.data_append, List.append_assoc]
    rw [← List.append_assoc ((": AsyncMessageError=\"") : String).data]
    rw [hlit]

/-- Witness for C5: the unknown action FROBNICATE is answered with the
pinned error response and the next request is still served. -/
theorem handle_unknown_action_error_witness :
    dget mqNativeHandlers "FROBNICATE" = none ∧
    (handle "w1" mqNativeGetHandler
      (fun h => (fun (_ : NativeHandlerRef) (_ : String × Unit) =>
        Except.ok (⟨none, [], 0⟩ : HandlePartial)) h ("FROBNICATE", ())) "FROBNICATE" 7).success =
      false ∧
    (handle "w1" mqNativeGetHandler
      (fun h => (fun (_ : NativeHandlerRef) (_ : String × Unit) =>
        Except.ok (⟨none, [], 0⟩ : HandlePartial)) h ("FROBNICATE", ())) "FROBNICATE" 7).message =
      some "FROBNICATE: AsyncMessageError=\"no implementation for FROBNICATE\"" ∧
    workerServe "w1" mqNativeGetHandler
      (fun _ _ => Except.ok (⟨none, [], 0⟩ : HandlePartial)) 7
      [("FROBNICATE", ()), ("CONN", ())] =
      handle "w1" mqNativeGetHandler
        (fun h => (fun (_ : NativeHandlerRef) (_ : String × Unit) =>
          Except.ok (⟨none, [], 0⟩ : HandlePartial)) h ("FROBNICATE", ())) "FROBNICATE" 7 ::
        workerServe "w1" mqNativeGetHandler
          (fun _ _ => Except.ok (⟨none, [], 0⟩ : HandlePartial)) 7 [("CONN", ())] :=
  ⟨by decide,
    (handle_unknown_action_error "w1" "FROBNICATE" 7 ()
      (fun _ _ => Except.ok (⟨none, [], 0⟩ : HandlePartial)) [("CONN", ())] (by decide)).1,
    by
      have h := (handle_unknown_action_error "w1" "FROBNICATE" 7 ()
        (fun _ _ => Except.ok (⟨none, [], 0⟩ : HandlePartial)) [("CONN", ())] (by decide)).2.1
      rw [h]
      decide,
    (handle_unknown_action_error "w1" "FROBNICATE" 7 ()
      (fun _ _ => Except.ok (⟨none, [], 0⟩ : HandlePartial)) [("CONN", ())] (by decide)).2.2.2⟩
